import Mathlib

/-!
Shallow embedding of the DiabetesDashboard server data layer.

The embedding follows the TypeScript source:
 - `src/shared/schema.ts` : record shapes and the zod request schemas;
 - `src/server/storage.ts` : the `MemStorage` class (JavaScript `Map`s keyed
   by auto-incrementing integer counters);
 - `src/server/routes.ts` : the Express route handlers (status codes,
   ownership checks, validation order);
 - the meal-plan generation adapter (`generateMealPlan` / `getSampleMealPlan`).

Modelling conventions: JavaScript numbers appearing in the data layer are
integers (`Int`); `Date` values are their millisecond epoch value (`Int`);
a JavaScript `Map` is an insertion-ordered association list
`List (Int × α)` whose keys are unique (a `Map` never holds two bindings of
one key, so replace-first and replace-all agree); `Map.set` replaces the
binding in place or appends, `Map.delete` removes the binding,
`Array.from(map.values())` is the list of values in insertion order.
An absent (`undefined`) or `null` field is `none`.
-/

/-- JavaScript `Map.prototype.get`: the binding of the key, if any. -/
def mapGet {α : Type} : List (Int × α) → Int → Option α
  | [], _ => none
  | p :: rest, id => if p.1 = id then some p.2 else mapGet rest id

/-- JavaScript `Map.prototype.has`. -/
def mapHas {α : Type} : List (Int × α) → Int → Bool
  | [], _ => false
  | p :: rest, id => p.1 = id || mapHas rest id

/-- JavaScript `Map.prototype.set`: replace the binding of the key in place
when present, otherwise append the new binding at the end. -/
def mapSet {α : Type} : List (Int × α) → Int → α → List (Int × α)
  | [], id, v => [(id, v)]
  | p :: rest, id, v => if p.1 = id then (id, v) :: rest else p :: mapSet rest id v

/-- JavaScript `Map.prototype.delete`: remove the binding of the key. -/
def mapDelete {α : Type} : List (Int × α) → Int → List (Int × α)
  | [], _ => []
  | p :: rest, id => if p.1 = id then rest else p :: mapDelete rest id

/-- JavaScript `String.prototype.toLowerCase` (restricted, like `Char.toLower`,
to the alphabets the repository's string literals use). -/
def jsToLower (s : String) : String := ⟨s.data.map Char.toLower⟩

/-- Helper for `jsIncludes`: does `needle` occur as a contiguous run in the
character list? -/
def includesAux (needle : List Char) : List Char → Bool
  | [] => needle.isEmpty
  | c :: rest => needle.isPrefixOf (c :: rest) || includesAux needle rest

/-- JavaScript `String.prototype.includes` (substring test). -/
def jsIncludes (hay needle : String) : Bool := includesAux needle.data hay.data

/-- Insert into a sorted list according to the boolean comparison `le`. -/
def insertSorted {α : Type} (le : α → α → Bool) (a : α) : List α → List α
  | [] => [a]
  | b :: bs => if le a b then a :: b :: bs else b :: insertSorted le a bs

/-- Comparator sort modelling `Array.prototype.sort`: only the fact that the
result is a permutation of the input matters to the properties proved here. -/
def sortBy {α : Type} (le : α → α → Bool) : List α → List α
  | [] => []
  | a :: as => insertSorted le a (sortBy le as)

/-- `users` table row (`src/shared/schema.ts`). `name` and `allergies` are
nullable columns; `none` stands for `null`/absent. -/
structure User where
  id : Int
  username : String
  email : String
  password : String
  name : Option String
  allergies : Option (List String)
deriving DecidableEq

/-- `insertUserSchema` payload: the `users` columns minus `id`. -/
structure InsertUser where
  username : String
  email : String
  password : String
  name : Option String
  allergies : Option (List String)
deriving DecidableEq

/-- `Partial<InsertUser>`: every field may be absent (`none` = key not
present, so the spread `{ ...existing, ...update }` keeps the old value). -/
structure PartialInsertUser where
  username : Option String
  email : Option String
  password : Option String
  name : Option (Option String)
  allergies : Option (Option (List String))
deriving DecidableEq

/-- `glucose_readings` table row. The column is declared
`timestamp.notNull().defaultNow()`, but `MemStorage.createGlucoseReading`
spreads the insert payload without filling a default, so a stored reading can
lack the timestamp; the field is therefore `Option Int` here. -/
structure GlucoseReading where
  id : Int
  userId : Int
  value : Int
  timestamp : Option Int
  type : String
  note : Option String
deriving DecidableEq

/-- `insertGlucoseReadingSchema` payload (timestamp optional because the
column has a default; note nullable). -/
structure InsertGlucoseReading where
  userId : Int
  value : Int
  timestamp : Option Int
  type : String
  note : Option String
deriving DecidableEq

/-- `insertGlucoseReadingSchema.partial()` payload. -/
structure PartialInsertGlucoseReading where
  userId : Option Int
  value : Option Int
  timestamp : Option Int
  type : Option String
  note : Option (Option String)
deriving DecidableEq

/-- `meal_plans` table row. `createdAt` is always filled by
`MemStorage.createMealPlan` (`plan.createdAt || new Date()`). -/
structure MealPlan where
  id : Int
  userId : Int
  name : String
  description : Option String
  mealType : String
  imageUrl : Option String
  carbs : Option Int
  servings : Option Int
  prepTime : Option Int
  tags : Option (List String)
  ingredients : Option (List String)
  instructions : Option (List String)
  createdAt : Int
deriving DecidableEq

/-- `insertMealPlanSchema` payload. `createdAt` is not part of the schema
pick; the storage layer still reads `plan.createdAt`, which is absent for
route-created plans, hence the optional field. -/
structure InsertMealPlan where
  userId : Int
  name : String
  description : Option String
  mealType : String
  imageUrl : Option String
  carbs : Option Int
  servings : Option Int
  prepTime : Option Int
  tags : Option (List String)
  ingredients : Option (List String)
  instructions : Option (List String)
  createdAt : Option Int
deriving DecidableEq

/-- `insertMealPlanSchema.partial()` payload. -/
structure PartialInsertMealPlan where
  userId : Option Int
  name : Option String
  description : Option (Option String)
  mealType : Option String
  imageUrl : Option (Option String)
  carbs : Option (Option Int)
  servings : Option (Option Int)
  prepTime : Option (Option Int)
  tags : Option (Option (List String))
  ingredients : Option (Option (List String))
  instructions : Option (Option (List String))
deriving DecidableEq

/-- `notes` table row (timestamp optional for the same reason as glucose
readings: `MemStorage.createNote` fills no default). -/
structure Note where
  id : Int
  userId : Int
  title : String
  content : String
  timestamp : Option Int
  category : Option String
deriving DecidableEq

/-- `insertNoteSchema` payload. -/
structure InsertNote where
  userId : Int
  title : String
  content : String
  timestamp : Option Int
  category : Option String
deriving DecidableEq

/-- `insertNoteSchema.partial()` payload. -/
structure PartialInsertNote where
  userId : Option Int
  title : Option String
  content : Option String
  timestamp : Option Int
  category : Option (Option String)
deriving DecidableEq

/-- One entity collection of `MemStorage`: a `Map` plus its auto-increment
counter (`userIdCounter`, `glucoseIdCounter`, ..., all starting at 1). -/
structure Table (α : Type) where
  rows : List (Int × α)
  nextId : Int
deriving DecidableEq

def Table.get {α : Type} (t : Table α) (id : Int) : Option α := mapGet t.rows id

/-- `const id = this.counter++; const row = { ...payload, id }; map.set(id, row)`. -/
def Table.create {α : Type} (t : Table α) (mk : Int → α) : α × Table α :=
  let id := t.nextId
  let row := mk id
  (row, ⟨mapSet t.rows id row, id + 1⟩)

/-- The shared update pattern: load, return `undefined` when absent,
otherwise store and return the merged record. -/
def Table.update {α : Type} (t : Table α) (id : Int) (f : α → α) : Option α × Table α :=
  match mapGet t.rows id with
  | none => (none, t)
  | some r =>
    let merged := f r
    (some merged, ⟨mapSet t.rows id merged, t.nextId⟩)

/-- `map.delete(id)`: the boolean tells whether the key existed. -/
def Table.del {α : Type} (t : Table α) (id : Int) : Bool × Table α :=
  (mapHas t.rows id, ⟨mapDelete t.rows id, t.nextId⟩)

/-- `Array.from(map.values())` in insertion order. -/
def Table.values {α : Type} (t : Table α) : List α := t.rows.map Prod.snd

def Table.keys {α : Type} (t : Table α) : List Int := t.rows.map Prod.fst

/-- The private state of `MemStorage`. -/
structure StorageState where
  users : Table User
  glucose : Table GlucoseReading
  meals : Table MealPlan
  notes : Table Note
deriving DecidableEq

/-- `new Date(x).getTime()` on a stored timestamp; a missing timestamp gives
`NaN` in JavaScript, which makes the sort comparator return `NaN` (order
unspecified) — the model picks 0, and no theorem below depends on the order. -/
def jsTime (t : Option Int) : Int := t.getD 0

/-- `MemStorage.getUser`. -/
def getUser (st : StorageState) (id : Int) : Option User := st.users.get id

/-- `MemStorage.getUserByUsername`: case-insensitive scan of the users map. -/
def getUserByUsername (st : StorageState) (username : String) : Option User :=
  st.users.values.find? fun u => jsToLower u.username == jsToLower username

/-- `MemStorage.getUserByEmail`: case-insensitive scan of the users map. -/
def getUserByEmail (st : StorageState) (email : String) : Option User :=
  st.users.values.find? fun u => jsToLower u.email == jsToLower email

/-- The spread `{ ...existing, ...update }` for users: a key present in the
update (even with a `null` value) overrides, an absent key keeps the old
value, and `id` is never part of the update payload. -/
def mergeUser (r : User) (u : PartialInsertUser) : User :=
  { id := r.id
    username := u.username.getD r.username
    email := u.email.getD r.email
    password := u.password.getD r.password
    name := match u.name with | some v => v | none => r.name
    allergies := match u.allergies with | some v => v | none => r.allergies }

/-- `MemStorage.updateUser`. -/
def updateUser (st : StorageState) (id : Int) (u : PartialInsertUser) :
    Option User × StorageState :=
  let p := st.users.update id fun r => mergeUser r u
  (p.1, { st with users := p.2 })

/-- `MemStorage.getGlucoseReading`. -/
def getGlucoseReading (st : StorageState) (id : Int) : Option GlucoseReading :=
  st.glucose.get id

/-- `MemStorage.createGlucoseReading`: `{ ...reading, id }` — note that no
timestamp default is filled in, unlike `createMealPlan`. -/
def createGlucoseReading (st : StorageState) (ins : InsertGlucoseReading) :
    GlucoseReading × StorageState :=
  let p := st.glucose.create fun id =>
    { id := id, userId := ins.userId, value := ins.value,
      timestamp := ins.timestamp, type := ins.type, note := ins.note }
  (p.1, { st with glucose := p.2 })

/-- `MemStorage.getGlucoseReadings`: filter by owner, sort newest first,
then `limit ? readings.slice(0, limit) : readings` (0 is falsy). -/
def getGlucoseReadings (st : StorageState) (userId : Int) (limit : Option Int) :
    List GlucoseReading :=
  let readings := sortBy (fun a b => decide (jsTime b.timestamp ≤ jsTime a.timestamp))
    (st.glucose.values.filter fun r => r.userId == userId)
  match limit with
  | some n => if n = 0 then readings else readings.take n.toNat
  | none => readings

/-- `MemStorage.getGlucoseReadingsByDateRange`. A reading without a stored
timestamp fails the range comparison (`NaN` comparisons are false). -/
def getGlucoseReadingsByDateRange (st : StorageState) (userId startDate endDate : Int) :
    List GlucoseReading :=
  sortBy (fun a b => decide (jsTime b.timestamp ≤ jsTime a.timestamp))
    (st.glucose.values.filter fun r =>
      r.userId == userId &&
        (match r.timestamp with
         | some t => decide (startDate ≤ t) && decide (t ≤ endDate)
         | none => false))

/-- The spread `{ ...existing, ...update }` for glucose readings. -/
def mergeGlucose (r : GlucoseReading) (u : PartialInsertGlucoseReading) : GlucoseReading :=
  { id := r.id
    userId := u.userId.getD r.userId
    value := u.value.getD r.value
    timestamp := match u.timestamp with | some t => some t | none => r.timestamp
    type := u.type.getD r.type
    note := match u.note with | some v => v | none => r.note }

/-- `MemStorage.updateGlucoseReading`. -/
def updateGlucoseReading (st : StorageState) (id : Int) (u : PartialInsertGlucoseReading) :
    Option GlucoseReading × StorageState :=
  let p := st.glucose.update id fun r => mergeGlucose r u
  (p.1, { st with glucose := p.2 })

/-- `MemStorage.deleteGlucoseReading`. -/
def deleteGlucoseReading (st : StorageState) (id : Int) : Bool × StorageState :=
  let p := st.glucose.del id
  (p.1, { st with glucose := p.2 })

/-- `MemStorage.getMealPlan`. -/
def getMealPlan (st : StorageState) (id : Int) : Option MealPlan :=
  st.meals.get id

/-- `MemStorage.createMealPlan`: `{ ...plan, id, createdAt: plan.createdAt || new Date() }`.
`now` is the clock value of `new Date()` at the call. -/
def createMealPlan (st : StorageState) (now : Int) (ins : InsertMealPlan) :
    MealPlan × StorageState :=
  let p := st.meals.create fun id =>
    { id := id, userId := ins.userId, name := ins.name, description := ins.description,
      mealType := ins.mealType, imageUrl := ins.imageUrl, carbs := ins.carbs,
      servings := ins.servings, prepTime := ins.prepTime, tags := ins.tags,
      ingredients := ins.ingredients, instructions := ins.instructions,
      createdAt := ins.createdAt.getD now }
  (p.1, { st with meals := p.2 })

/-- `MemStorage.getMealPlans`: filter by owner, sort by `createdAt` newest
first, then `limit ? plans.slice(0, limit) : plans`. -/
def getMealPlans (st : StorageState) (userId : Int) (limit : Option Int) : List MealPlan :=
  let plans := sortBy (fun a b => decide (b.createdAt ≤ a.createdAt))
    (st.meals.values.filter fun p => p.userId == userId)
  match limit with
  | some n => if n = 0 then plans else plans.take n.toNat
  | none => plans

/-- `MemStorage.getMealPlansByType`. -/
def getMealPlansByType (st : StorageState) (userId : Int) (mealType : String) :
    List MealPlan :=
  sortBy (fun a b => decide (b.createdAt ≤ a.createdAt))
    (st.meals.values.filter fun p => p.userId == userId && p.mealType == mealType)

/-- The spread `{ ...existing, ...update }` for meal plans (`createdAt` is
not in the insert schema, so it is never overridden). -/
def mergeMealPlan (r : MealPlan) (u : PartialInsertMealPlan) : MealPlan :=
  { id := r.id
    userId := u.userId.getD r.userId
    name := u.name.getD r.name
    description := match u.description with | some v => v | none => r.description
    mealType := u.mealType.getD r.mealType
    imageUrl := match u.imageUrl with | some v => v | none => r.imageUrl
    carbs := match u.carbs with | some v => v | none => r.carbs
    servings := match u.servings with | some v => v | none => r.servings
    prepTime := match u.prepTime with | some v => v | none => r.prepTime
    tags := match u.tags with | some v => v | none => r.tags
    ingredients := match u.ingredients with | some v => v | none => r.ingredients
    instructions := match u.instructions with | some v => v | none => r.instructions
    createdAt := r.createdAt }

/-- `MemStorage.updateMealPlan`. -/
def updateMealPlan (st : StorageState) (id : Int) (u : PartialInsertMealPlan) :
    Option MealPlan × StorageState :=
  let p := st.meals.update id fun r => mergeMealPlan r u
  (p.1, { st with meals := p.2 })

/-- `MemStorage.deleteMealPlan`. -/
def deleteMealPlan (st : StorageState) (id : Int) : Bool × StorageState :=
  let p := st.meals.del id
  (p.1, { st with meals := p.2 })

/-- `MemStorage.getNote`. -/
def getNote (st : StorageState) (id : Int) : Option Note :=
  st.notes.get id

/-- `MemStorage.createNote`: `{ ...note, id }` — again no timestamp default. -/
def createNote (st : StorageState) (ins : InsertNote) : Note × StorageState :=
  let p := st.notes.create fun id =>
    { id := id, userId := ins.userId, title := ins.title, content := ins.content,
      timestamp := ins.timestamp, category := ins.category }
  (p.1, { st with notes := p.2 })

/-- `MemStorage.getNotes`. -/
def getNotes (st : StorageState) (userId : Int) (limit : Option Int) : List Note :=
  let userNotes := sortBy (fun a b => decide (jsTime b.timestamp ≤ jsTime a.timestamp))
    (st.notes.values.filter fun n => n.userId == userId)
  match limit with
  | some n => if n = 0 then userNotes else userNotes.take n.toNat
  | none => userNotes

/-- The spread `{ ...existing, ...update }` for notes. -/
def mergeNote (r : Note) (u : PartialInsertNote) : Note :=
  { id := r.id
    userId := u.userId.getD r.userId
    title := u.title.getD r.title
    content := u.content.getD r.content
    timestamp := match u.timestamp with | some t => some t | none => r.timestamp
    category := match u.category with | some v => v | none => r.category }

/-- `MemStorage.updateNote`. -/
def updateNote (st : StorageState) (id : Int) (u : PartialInsertNote) :
    Option Note × StorageState :=
  let p := st.notes.update id fun r => mergeNote r u
  (p.1, { st with notes := p.2 })

/-- `MemStorage.deleteNote`. -/
def deleteNote (st : StorageState) (id : Int) : Bool × StorageState :=
  let p := st.notes.del id
  (p.1, { st with notes := p.2 })

/-- One JavaScript day in milliseconds, for the `setDate(getDate() - 1)`
calls in the constructor's demo seeding. -/
def dayMs : Int := 86400000

/-- The demo-data block of `MemStorage.createUser`, run when the created
user's id is 1: four glucose readings, two meal plans and two notes, dated
relative to `now`. -/
def seedDemoData (st1 : StorageState) (uid : Int) (now : Int) : StorageState :=
    let yesterday := now - dayMs
    let twoDaysAgo := now - 2 * dayMs
    let st2 := (createGlucoseReading st1
      { userId := uid, value := 118, timestamp := some now,
        type := "before_breakfast", note := some "Normal reading" }).2
    let st3 := (createGlucoseReading st2
      { userId := uid, value := 162, timestamp := some yesterday,
        type := "after_lunch", note := some "Slightly elevated" }).2
    let st4 := (createGlucoseReading st3
      { userId := uid, value := 105, timestamp := some yesterday,
        type := "before_breakfast", note := some "Good fasting level" }).2
    let st5 := (createGlucoseReading st4
      { userId := uid, value := 183, timestamp := some twoDaysAgo,
        type := "after_meal", note := some "High after eating pasta" }).2
    let st6 := (createMealPlan st5 now
      { userId := uid, name := "Grilled Salmon with Vegetables",
        description := some "Perfect for dinner - high protein, low carb option with omega-3 fatty acids.",
        mealType := "dinner",
        imageUrl := some "https://images.unsplash.com/photo-1539136788836-5699e78bfc75",
        carbs := some 12, servings := some 1, prepTime := some 30,
        tags := some ["Low Carb", "High Protein"],
        ingredients := some ["Salmon fillet", "Asparagus", "Bell peppers", "Olive oil", "Lemon", "Salt", "Pepper"],
        instructions := some ["Preheat oven to 400°F", "Season salmon with salt, pepper and lemon", "Roast vegetables with olive oil", "Bake for 15-20 minutes"],
        createdAt := none }).2
    let st7 := (createMealPlan st6 now
      { userId := uid, name := "Greek Yogurt Breakfast Bowl",
        description := some "High protein breakfast with berries, nuts, and a touch of honey.",
        mealType := "breakfast",
        imageUrl := some "https://images.unsplash.com/photo-1623428187969-5da2dcea5ebf",
        carbs := some 18, servings := some 1, prepTime := some 10,
        tags := some ["Breakfast", "High Protein"],
        ingredients := some ["Greek yogurt", "Mixed berries", "Almonds", "Honey", "Cinnamon"],
        instructions := some ["Add yogurt to a bowl", "Top with berries, nuts and a drizzle of honey", "Sprinkle with cinnamon"],
        createdAt := none }).2
    let st8 := (createNote st7
      { userId := uid, title := "Increased activity today",
        content := "Went for a 30-minute walk after breakfast. Glucose readings were stable throughout the day.",
        timestamp := some now, category := some "Exercise" }).2
    let st9 := (createNote st8
      { userId := uid, title := "High reading after dinner",
        content := "Dinner included more carbs than usual. Will try to reduce portion size next time.",
        timestamp := some yesterday, category := some "Diet" }).2
    st9

/-- `MemStorage.createUser`: insert the user and, when the assigned id is 1
(the first user ever), seed the demo glucose readings, meal plans and notes.
`now` is the clock value of `new Date()` during the call. -/
def createUser (st : StorageState) (now : Int) (ins : InsertUser) : User × StorageState :=
  let p := st.users.create fun id =>
    { id := id, username := ins.username, email := ins.email,
      password := ins.password, name := ins.name, allergies := ins.allergies }
  let user := p.1
  let st1 : StorageState := { st with users := p.2 }
  if user.id = 1 then
    (user, seedDemoData st1 user.id now)
  else
    (user, st1)

/-- The state of a fresh `MemStorage` before the constructor's demo
`createUser` call: empty maps, every counter at 1. -/
def emptyState : StorageState :=
  { users := ⟨[], 1⟩, glucose := ⟨[], 1⟩, meals := ⟨[], 1⟩, notes := ⟨[], 1⟩ }

/-- The demo user inserted by the `MemStorage` constructor. -/
def demoInsertUser : InsertUser :=
  { username := "demo", email := "demo@example.com", password := "password123",
    name := some "John Doe", allergies := some ["peanuts", "shellfish"] }

/-- The program's initial store: what the `MemStorage` constructor builds
(`now` is the clock at construction time). -/
def initialState (now : Int) : StorageState :=
  (createUser emptyState now demoInsertUser).2

/-- A JSON-ish request-body value as zod sees it on the server: absent key,
`null`, number, string, or a JavaScript `Date` object (which `z.date()`
demands; note `JSON.parse` never produces one). -/
inductive Json where
  | undef
  | nul
  | num (n : Int)
  | str (s : String)
  | date (t : Int)
deriving DecidableEq

/-- `z.number()` as generated by `createInsertSchema` for an integer column:
any number passes, there is no range refinement. -/
def zNumber : Json → Option Int
  | .num n => some n
  | _ => none

/-- `z.string()`. -/
def zString : Json → Option String
  | .str s => some s
  | _ => none

/-- `z.date().optional()` (for the defaulted `timestamp` column). -/
def zOptionalDate : Json → Option (Option Int)
  | .undef => some none
  | .date t => some (some t)
  | _ => none

/-- `z.string().nullable().optional()` (for a nullable text column). -/
def zOptionalNullableString : Json → Option (Option String)
  | .undef => some none
  | .nul => some none
  | .str s => some (some s)
  | _ => none

/-- `insertGlucoseReadingSchema.safeParse({ ...req.body, userId })`: the
route overrides `userId` with the session user's id, and the schema checks
only the field shapes — the glucose `value` is any number. -/
def parseInsertGlucose (uid : Int) (value ty ts note : Json) :
    Option InsertGlucoseReading :=
  match zNumber value, zString ty, zOptionalDate ts, zOptionalNullableString note with
  | some v, some t, some tso, some no =>
    some { userId := uid, value := v, timestamp := tso, type := t, note := no }
  | _, _, _, _ => none

/-- The result of a route handler: HTTP status, JSON payload (when one is
sent), and the store state after the request. -/
structure HandlerResult (α : Type) where
  status : Int
  payload : Option α
  state : StorageState
deriving DecidableEq

/-- `POST /api/glucose`: validate `{ ...req.body, userId }` against
`insertGlucoseReadingSchema`, 400 on failure, otherwise store and answer 201
with the new reading. -/
def postGlucoseHandler (st : StorageState) (uid : Int) (value ty ts note : Json) :
    HandlerResult GlucoseReading :=
  match parseInsertGlucose uid value ty ts note with
  | none => ⟨400, none, st⟩
  | some ins =>
    let p := createGlucoseReading st ins
    ⟨201, some p.1, p.2⟩

/-- `PUT /api/glucose/:id`: 404 when the reading is absent, 403 when its
owner differs from the session user (checked before body validation), 400 on
an invalid body (`body = none`), otherwise update and answer 200. -/
def putGlucoseHandler (st : StorageState) (uid rid : Int)
    (body : Option PartialInsertGlucoseReading) : HandlerResult GlucoseReading :=
  match getGlucoseReading st rid with
  | none => ⟨404, none, st⟩
  | some r =>
    if r.userId ≠ uid then ⟨403, none, st⟩
    else
      match body with
      | none => ⟨400, none, st⟩
      | some upd =>
        let p := updateGlucoseReading st rid upd
        ⟨200, p.1, p.2⟩

/-- `DELETE /api/glucose/:id`: 404 / 403 checks as above, then delete. -/
def deleteGlucoseHandler (st : StorageState) (uid rid : Int) : HandlerResult String :=
  match getGlucoseReading st rid with
  | none => ⟨404, none, st⟩
  | some r =>
    if r.userId ≠ uid then ⟨403, none, st⟩
    else
      ⟨200, some "Reading deleted successfully", (deleteGlucoseReading st rid).2⟩

/-- `PUT /api/meal-plans/:id`. -/
def putMealPlanHandler (st : StorageState) (uid rid : Int)
    (body : Option PartialInsertMealPlan) : HandlerResult MealPlan :=
  match getMealPlan st rid with
  | none => ⟨404, none, st⟩
  | some r =>
    if r.userId ≠ uid then ⟨403, none, st⟩
    else
      match body with
      | none => ⟨400, none, st⟩
      | some upd =>
        let p := updateMealPlan st rid upd
        ⟨200, p.1, p.2⟩

/-- `DELETE /api/meal-plans/:id`. -/
def deleteMealPlanHandler (st : StorageState) (uid rid : Int) : HandlerResult String :=
  match getMealPlan st rid with
  | none => ⟨404, none, st⟩
  | some r =>
    if r.userId ≠ uid then ⟨403, none, st⟩
    else
      ⟨200, some "Meal plan deleted successfully", (deleteMealPlan st rid).2⟩

/-- `PUT /api/notes/:id`. -/
def putNoteHandler (st : StorageState) (uid rid : Int)
    (body : Option PartialInsertNote) : HandlerResult Note :=
  match getNote st rid with
  | none => ⟨404, none, st⟩
  | some r =>
    if r.userId ≠ uid then ⟨403, none, st⟩
    else
      match body with
      | none => ⟨400, none, st⟩
      | some upd =>
        let p := updateNote st rid upd
        ⟨200, p.1, p.2⟩

/-- `DELETE /api/notes/:id`. -/
def deleteNoteHandler (st : StorageState) (uid rid : Int) : HandlerResult String :=
  match getNote st rid with
  | none => ⟨404, none, st⟩
  | some r =>
    if r.userId ≠ uid then ⟨403, none, st⟩
    else
      ⟨200, some "Note deleted successfully", (deleteNote st rid).2⟩

/-- The registration request body (after JSON decoding, fields well-typed). -/
structure RegisterBody where
  username : String
  email : String
  password : String
  confirmPassword : String
  name : Option String
  allergies : Option (List String)
deriving DecidableEq

/-- `registerSchema`: `insertUserSchema` (plain strings, no length bounds)
extended with `confirmPassword: z.string().min(6)` and the refinement
`password === confirmPassword`. -/
def registerValidate (b : RegisterBody) : Bool :=
  6 ≤ b.confirmPassword.length && b.password == b.confirmPassword

/-- The user object sent to the client: `{ password, ...userWithoutPassword }`. -/
structure PublicUser where
  id : Int
  username : String
  email : String
  name : Option String
  allergies : Option (List String)
deriving DecidableEq

def stripPassword (u : User) : PublicUser :=
  { id := u.id, username := u.username, email := u.email,
    name := u.name, allergies := u.allergies }

/-- `POST /api/auth/register`: 400 on schema failure, 400 when the username
or the email is already taken (case-insensitive lookups), otherwise create
the user, log the session in, and answer 201 with the password stripped. -/
def registerHandler (st : StorageState) (now : Int) (b : RegisterBody) :
    HandlerResult PublicUser :=
  if ¬ registerValidate b then ⟨400, none, st⟩
  else
    match getUserByUsername st b.username with
    | some _ => ⟨400, none, st⟩
    | none =>
      match getUserByEmail st b.email with
      | some _ => ⟨400, none, st⟩
      | none =>
        let p := createUser st now
          { username := b.username, email := b.email, password := b.password,
            name := b.name, allergies := b.allergies }
        ⟨201, some (stripPassword p.1), p.2⟩

/-- The client-side form schema for adding a glucose reading
(`glucoseFormSchema`): `value: z.coerce.number().min(20).max(600)`,
`type: z.string().min(1)`, note and timestamp optional strings. This is the
only place the [20,600] bound is checked. -/
def glucoseFormValidate (v : Int) (ty : String) : Bool :=
  20 ≤ v && v ≤ 600 && 1 ≤ ty.length

/-- The shape the generation adapter produces (`MealPlanResponse`). -/
structure MealPlanResponse where
  name : String
  description : String
  mealType : String
  imageUrl : Option String
  carbs : Int
  servings : Int
  prepTime : Int
  tags : List String
  ingredients : List String
  instructions : List String
deriving DecidableEq

/-- The static `mealImages` record: known meal types map to three sample
URLs, any other key is `undefined`. -/
def mealImagesFor (mealType : String) : Option (List String) :=
  if mealType = "breakfast" then
    some ["https://images.unsplash.com/photo-1623428187969-5da2dcea5ebf",
          "https://images.unsplash.com/photo-1525351484163-7529414344d8",
          "https://images.unsplash.com/photo-1533089860892-a7c6f0a88666"]
  else if mealType = "lunch" then
    some ["https://images.unsplash.com/photo-1490645935967-10de6ba17061",
          "https://images.unsplash.com/photo-1546069901-ba9599a7e63c",
          "https://images.unsplash.com/photo-1512621776951-a57141f2eefd"]
  else if mealType = "dinner" then
    some ["https://images.unsplash.com/photo-1539136788836-5699e78bfc75",
          "https://images.unsplash.com/photo-1467003909585-2f8a72700288",
          "https://images.unsplash.com/photo-1559847844-5315695dadae"]
  else if mealType = "snack" then
    some ["https://images.unsplash.com/photo-1486328228599-85db4443971f",
          "https://images.unsplash.com/photo-1624300629298-e9de39c13be6",
          "https://images.unsplash.com/photo-1593115590229-5c97a4c87b5d"]
  else none

/-- The `allergyFilter` closure of `getSampleMealPlan`: keep an ingredient
unless some allergy occurs in it as a case-insensitive substring. -/
def allergyFilter (allergies : List String) (ingredients : List String) : List String :=
  ingredients.filter fun ingredient =>
    ! allergies.any fun allergy => jsIncludes (jsToLower ingredient) (jsToLower allergy)

/-- `getSampleMealPlan`: the built-in fallback recipes, ingredients run
through `allergyFilter`; an unknown meal type falls back to the snack sample
(`samples[mealType] || samples.snack`). -/
def getSampleMealPlan (mealType : String) (allergies : List String) : MealPlanResponse :=
  if mealType = "breakfast" then
    { name := "Greek Yogurt Breakfast Bowl",
      description := "High protein breakfast with berries, nuts, and a touch of honey.",
      mealType := "breakfast", carbs := 18, servings := 1, prepTime := 10,
      tags := ["Breakfast", "High Protein"],
      ingredients := allergyFilter allergies
        ["Greek yogurt", "Mixed berries", "Almonds", "Honey", "Cinnamon"],
      instructions := ["Add yogurt to a bowl", "Top with berries, nuts and a drizzle of honey", "Sprinkle with cinnamon"],
      imageUrl := some "https://images.unsplash.com/photo-1623428187969-5da2dcea5ebf" }
  else if mealType = "lunch" then
    { name := "Quinoa Bowl with Chickpeas",
      description := "Plant-based protein with complex carbs for sustained energy.",
      mealType := "lunch", carbs := 32, servings := 1, prepTime := 20,
      tags := ["Lunch", "Vegetarian"],
      ingredients := allergyFilter allergies
        ["Quinoa", "Chickpeas", "Bell peppers", "Cucumber", "Olive oil", "Lemon juice", "Salt", "Pepper", "Parsley"],
      instructions := ["Cook quinoa according to package instructions", "Chop vegetables and mix with chickpeas", "Combine all ingredients and dress with olive oil and lemon juice", "Season with salt, pepper, and chopped parsley"],
      imageUrl := some "https://images.unsplash.com/photo-1490645935967-10de6ba17061" }
  else if mealType = "dinner" then
    { name := "Grilled Salmon with Vegetables",
      description := "Perfect for dinner - high protein, low carb option with omega-3 fatty acids.",
      mealType := "dinner", carbs := 12, servings := 1, prepTime := 30,
      tags := ["Low Carb", "High Protein"],
      ingredients := allergyFilter allergies
        ["Salmon fillet", "Asparagus", "Bell peppers", "Olive oil", "Lemon", "Salt", "Pepper"],
      instructions := ["Preheat oven to 400Â°F", "Season salmon with salt, pepper and lemon", "Roast vegetables with olive oil", "Bake for 15-20 minutes"],
      imageUrl := some "https://images.unsplash.com/photo-1539136788836-5699e78bfc75" }
  else
    { name := "Veggie Sticks with Hummus",
      description := "A balanced snack with protein and fiber to keep blood sugar stable.",
      mealType := "snack", carbs := 15, servings := 1, prepTime := 5,
      tags := ["Low Carb", "Vegetarian"],
      ingredients := allergyFilter allergies
        ["Carrot sticks", "Cucumber sticks", "Bell pepper strips", "Hummus", "Sesame seeds"],
      instructions := ["Wash and cut vegetables into sticks", "Serve with a side of hummus", "Sprinkle hummus with sesame seeds"],
      imageUrl := some "https://images.unsplash.com/photo-1486328228599-85db4443971f" }

/-- The exceptions the `try` block of `generateMealPlan` can raise. -/
inductive GenError where
  | fetchFailed
  | badStatus (code : Int)
  | malformedResponse
  | invalidMealType
deriving DecidableEq

/-- What the external fetch resolved to: HTTP-level success flag and status,
and the meal plan decoded from `data.choices[0].message.content` when that
chain exists and parses (`none` models any malformed response, for which
`JSON.parse`or the property chain throws). -/
structure FetchResponse where
  ok : Bool
  status : Int
  content : Option MealPlanResponse
deriving DecidableEq

/-- The external world as `generateMealPlan` observes it: the credential
lookup, the fetch outcome (`Except.error` = network rejection), and the
`Math.random` draw used to pick a sample image. -/
structure GenEnv where
  apiKey : Option String
  fetchOutcome : Except Unit FetchResponse
  pick : Nat

/-- The body of `generateMealPlan`'s `try` block, with every `throw`
explicit: missing credentials return the sample early; a network error, a
non-ok status, a malformed payload, or an unknown meal type (whose
`mealImages[mealType].length` access throws a TypeError) all raise. -/
def tryGenerateMealPlan (env : GenEnv) (mealType : String) (allergies : List String) :
    Except GenError MealPlanResponse :=
  match env.apiKey with
  | none => .ok (getSampleMealPlan mealType allergies)
  | some _ =>
    match env.fetchOutcome with
    | .error _ => .error .fetchFailed
    | .ok resp =>
      if resp.ok = false then .error (.badStatus resp.status)
      else
        match resp.content with
        | none => .error .malformedResponse
        | some mp =>
          match mealImagesFor mealType with
          | none => .error .invalidMealType
          | some imgs =>
            .ok { mp with imageUrl := some (imgs.getD (env.pick % imgs.length) "") }

/-- `generateMealPlan`: the `try`/`catch` wrapper — any raised error is
logged and swallowed, falling back to `getSampleMealPlan`. -/
def generateMealPlan (env : GenEnv) (mealType : String) (allergies : List String) :
    Except GenError MealPlanResponse :=
  match tryGenerateMealPlan env mealType allergies with
  | .ok mp => .ok mp
  | .error _ => .ok (getSampleMealPlan mealType allergies)

/-- The `Map`-plus-counter invariant of every `MemStorage` collection: keys
are pairwise distinct and every key is below the auto-increment counter. -/
def goodTable {α : Type} (t : Table α) : Prop :=
  t.keys.Nodup ∧ ∀ k ∈ t.keys, k < t.nextId

/-- The full `MemStorage` invariant. -/
def invState (st : StorageState) : Prop :=
  goodTable st.users ∧ goodTable st.glucose ∧ goodTable st.meals ∧ goodTable st.notes

/-- The store mutations reachable through the `IStorage` interface. -/
inductive Op where
  | opRegisterUser (now : Int) (ins : InsertUser)
  | opUpdateUser (id : Int) (u : PartialInsertUser)
  | opCreateGlucose (ins : InsertGlucoseReading)
  | opUpdateGlucose (id : Int) (u : PartialInsertGlucoseReading)
  | opDeleteGlucose (id : Int)
  | opCreateMeal (now : Int) (ins : InsertMealPlan)
  | opUpdateMeal (id : Int) (u : PartialInsertMealPlan)
  | opDeleteMeal (id : Int)
  | opCreateNote (ins : InsertNote)
  | opUpdateNote (id : Int) (u : PartialInsertNote)
  | opDeleteNote (id : Int)

def applyOp (st : StorageState) : Op → StorageState
  | .opRegisterUser now ins => (createUser st now ins).2
  | .opUpdateUser id u => (updateUser st id u).2
  | .opCreateGlucose ins => (createGlucoseReading st ins).2
  | .opUpdateGlucose id u => (updateGlucoseReading st id u).2
  | .opDeleteGlucose id => (deleteGlucoseReading st id).2
  | .opCreateMeal now ins => (createMealPlan st now ins).2
  | .opUpdateMeal id u => (updateMealPlan st id u).2
  | .opDeleteMeal id => (deleteMealPlan st id).2
  | .opCreateNote ins => (createNote st ins).2
  | .opUpdateNote id u => (updateNote st id u).2
  | .opDeleteNote id => (deleteNote st id).2

/-- A sequence of store operations, applied in order. -/
def runOps (st : StorageState) (ops : List Op) : StorageState := ops.foldl applyOp st

/-- Pointwise order on the four auto-increment counters: they only grow. -/
def countersLE (a b : StorageState) : Prop :=
  a.users.nextId ≤ b.users.nextId ∧ a.glucose.nextId ≤ b.glucose.nextId ∧
  a.meals.nextId ≤ b.meals.nextId ∧ a.notes.nextId ≤ b.notes.nextId

/-- The registration body of the spec's demo scenario. -/
def demoRegisterBody : RegisterBody :=
  { username := "demo", email := "demo@example.com", password := "password123",
    confirmPassword := "password123", name := none, allergies := none }

/-- A registration body whose username and email are not in the initial store. -/
def aliceRegisterBody : RegisterBody :=
  { username := "alice", email := "alice@example.com", password := "password123",
    confirmPassword := "password123", name := none, allergies := none }

/-- A well-formed glucose insert payload with the timestamp omitted. -/
def sampleGlucoseInsert : InsertGlucoseReading :=
  { userId := 1, value := 118, timestamp := none, type := "before_breakfast", note := none }

/-- The first demo glucose reading seeded by the constructor at clock 0. -/
def seededReading1 : GlucoseReading :=
  { id := 1, userId := 1, value := 118, timestamp := some 0,
    type := "before_breakfast", note := some "Normal reading" }

/-- A partial glucose update touching only the value field. -/
def sampleGlucosePatch : PartialInsertGlucoseReading :=
  { userId := none, value := some 125, timestamp := none, type := none, note := none }

theorem mapGet_mapSet_self {α : Type} (rows : List (Int × α)) (id : Int) (v : α) :
    mapGet (mapSet rows id v) id = some v := by
  induction rows with
  | nil => simp [mapGet, mapSet]
  | cons p rest ih =>
    by_cases hp : p.1 = id
    · simp [mapGet, mapSet, hp]
    · simpa [mapGet, mapSet, hp] using ih

theorem mapGet_mapSet_ne {α : Type} (rows : List (Int × α)) (id j : Int) (v : α)
    (h : j ≠ id) : mapGet (mapSet rows id v) j = mapGet rows j := by
  induction rows with
  | nil => simp [mapGet, mapSet, Ne.symm h]
  | cons p rest ih =>
    by_cases hp : p.1 = id
    · simp [mapGet, mapSet, hp, Ne.symm h]
    · by_cases hpj : p.1 = j
      · simp [mapGet, mapSet, hp, hpj, h]
      · simpa [mapGet, mapSet, hp, hpj] using ih

theorem mapHas_eq_isSome {α : Type} (rows : List (Int × α)) (id : Int) :
    mapHas rows id = (mapGet rows id).isSome := by
  induction rows with
  | nil => simp [mapHas, mapGet]
  | cons p rest ih =>
    by_cases hp : p.1 = id
    · simp [mapHas, mapGet, hp]
    · simpa [mapHas, mapGet, hp] using ih

theorem mapGet_eq_none_of_not_mem_keys {α : Type} (rows : List (Int × α)) (id : Int)
    (h : id ∉ rows.map Prod.fst) : mapGet rows id = none := by
  induction rows with
  | nil => simp [mapGet]
  | cons p rest ih =>
    have hp : ¬ p.1 = id := by
      intro he; exact h (by simp [he])
    have hrest : id ∉ rest.map Prod.fst := by
      intro hm; exact h (by simp; right; simpa using hm)
    simpa [mapGet, hp] using ih hrest

/-- In a map whose keys are unique (the `Map` invariant), a delete removes
every trace of the key. -/
theorem mapGet_mapDelete_self {α : Type} (rows : List (Int × α)) (id : Int)
    (hnd : (rows.map Prod.fst).Nodup) :
    mapGet (mapDelete rows id) id = none := by
  induction rows with
  | nil => simp [mapGet, mapDelete]
  | cons p rest ih =>
    have hnd' : (p.1 :: rest.map Prod.fst).Nodup := by simpa using hnd
    rcases List.nodup_cons.mp hnd' with ⟨hni, hrest⟩
    by_cases hp : p.1 = id
    · simp only [mapDelete, hp, if_true]
      exact mapGet_eq_none_of_not_mem_keys rest id (by rw [← hp]; exact hni)
    · simpa [mapGet, mapDelete, hp] using ih hrest

theorem mapGet_mapDelete_ne {α : Type} (rows : List (Int × α)) (id j : Int)
    (h : j ≠ id) : mapGet (mapDelete rows id) j = mapGet rows j := by
  induction rows with
  | nil => simp [mapDelete]
  | cons p rest ih =>
    by_cases hp : p.1 = id
    · have hpj : ¬ p.1 = j := by
        intro he; exact h (by rw [← he, hp])
      simp [mapGet, mapDelete, hp, hpj, Ne.symm h]
    · by_cases hpj : p.1 = j
      · simp [mapGet, mapDelete, hp, hpj, h]
      · simpa [mapGet, mapDelete, hp, hpj] using ih

theorem keys_mapSet_of_mapHas {α : Type} (rows : List (Int × α)) (id : Int) (v : α)
    (h : mapHas rows id = true) :
    (mapSet rows id v).map Prod.fst = rows.map Prod.fst := by
  induction rows with
  | nil => simp [mapHas] at h
  | cons p rest ih =>
    by_cases hp : p.1 = id
    · simp [mapSet, hp]
    · have hrest : mapHas rest id = true := by simpa [mapHas, hp] using h
      simpa [mapSet, hp] using ih hrest

theorem keys_mapSet_of_not_mapHas {α : Type} (rows : List (Int × α)) (id : Int) (v : α)
    (h : mapHas rows id = false) :
    (mapSet rows id v).map Prod.fst = rows.map Prod.fst ++ [id] := by
  induction rows with
  | nil => simp [mapSet]
  | cons p rest ih =>
    have hp : ¬ p.1 = id := by
      intro he
      simp [mapHas, he] at h
    have hrest : mapHas rest id = false := by simpa [mapHas, hp] using h
    simpa [mapSet, hp] using ih hrest

theorem keys_mapDelete_sublist {α : Type} (rows : List (Int × α)) (id : Int) :
    ((mapDelete rows id).map Prod.fst).Sublist (rows.map Prod.fst) := by
  induction rows with
  | nil => simp [mapDelete]
  | cons p rest ih =>
    by_cases hp : p.1 = id
    · simp only [mapDelete, hp, if_true, List.map_cons]
      exact (List.sublist_cons_self _ _)
    · simp only [mapDelete, hp, if_false, List.map_cons]
      exact ih.cons₂ p.1

theorem mem_insertSorted {α : Type} (le : α → α → Bool) (a x : α) (l : List α) :
    x ∈ insertSorted le a l ↔ x = a ∨ x ∈ l := by
  induction l with
  | nil => simp [insertSorted]
  | cons b bs ih =>
    by_cases h : le a b
    · simp [insertSorted, h]
    · simp [insertSorted, h, ih]
      tauto

theorem mem_sortBy {α : Type} (le : α → α → Bool) (x : α) (l : List α) :
    x ∈ sortBy le l ↔ x ∈ l := by
  induction l with
  | nil => simp [sortBy]
  | cons a as ih =>
    simp [sortBy, mem_insertSorted, ih]

theorem mapHas_iff_mem_keys {α : Type} (rows : List (Int × α)) (id : Int) :
    mapHas rows id = true ↔ id ∈ rows.map Prod.fst := by
  induction rows with
  | nil => simp [mapHas]
  | cons p rest ih =>
    by_cases hp : p.1 = id
    · simp [mapHas, hp]
    · simp [mapHas, hp, ih, Ne.symm hp]

theorem goodTable_create {α : Type} (t : Table α) (mk : Int → α)
    (h : goodTable t) : goodTable (t.create mk).2 := by
  obtain ⟨hnd, hlt⟩ := h
  have hnotmem : t.nextId ∉ t.rows.map Prod.fst := by
    intro hm
    exact absurd (hlt _ hm) (lt_irrefl _)
  have hhas : mapHas t.rows t.nextId = false := by
    by_cases hb : mapHas t.rows t.nextId
    · exact absurd ((mapHas_iff_mem_keys _ _).mp hb) hnotmem
    · simpa using hb
  constructor
  · show ((mapSet t.rows t.nextId _).map Prod.fst).Nodup
    rw [keys_mapSet_of_not_mapHas _ _ _ hhas, List.nodup_append]
    refine ⟨hnd, List.nodup_singleton _, ?_⟩
    intro a ha hb
    rw [List.mem_singleton] at hb
    subst hb
    exact hnotmem ha
  · intro k hk
    show k < t.nextId + 1
    have : k ∈ t.rows.map Prod.fst ++ [t.nextId] := by
      simpa [Table.keys, Table.create, keys_mapSet_of_not_mapHas _ _ _ hhas] using hk
    rcases List.mem_append.mp this with hin | hin
    · exact lt_trans (hlt _ hin) (lt_add_one _)
    · simp at hin
      simp [hin]

theorem goodTable_update {α : Type} (t : Table α) (id : Int) (f : α → α)
    (h : goodTable t) : goodTable (t.update id f).2 := by
  obtain ⟨hnd, hlt⟩ := h
  unfold Table.update
  cases hg : mapGet t.rows id with
  | none => exact ⟨hnd, hlt⟩
  | some r =>
    have hhas : mapHas t.rows id = true := by
      rw [mapHas_eq_isSome, hg]; rfl
    constructor
    · show ((mapSet t.rows id _).map Prod.fst).Nodup
      rw [keys_mapSet_of_mapHas _ _ _ hhas]
      exact hnd
    · intro k hk
      have : k ∈ t.rows.map Prod.fst := by
        have := keys_mapSet_of_mapHas t.rows id (f r) hhas
        simpa [Table.keys, this] using hk
      exact hlt _ this

theorem goodTable_del {α : Type} (t : Table α) (id : Int)
    (h : goodTable t) : goodTable (t.del id).2 := by
  obtain ⟨hnd, hlt⟩ := h
  constructor
  · exact (keys_mapDelete_sublist t.rows id).nodup hnd
  · intro k hk
    exact hlt _ ((keys_mapDelete_sublist t.rows id).mem hk)

theorem invState_createGlucoseReading (st : StorageState) (ins : InsertGlucoseReading)
    (h : invState st) : invState (createGlucoseReading st ins).2 := by
  obtain ⟨hu, hg, hm, hn⟩ := h
  unfold createGlucoseReading invState
  dsimp only
  exact ⟨hu, goodTable_create _ _ hg, hm, hn⟩

theorem invState_createMealPlan (st : StorageState) (now : Int) (ins : InsertMealPlan)
    (h : invState st) : invState (createMealPlan st now ins).2 := by
  obtain ⟨hu, hg, hm, hn⟩ := h
  unfold createMealPlan invState
  dsimp only
  exact ⟨hu, hg, goodTable_create _ _ hm, hn⟩

theorem invState_createNote (st : StorageState) (ins : InsertNote)
    (h : invState st) : invState (createNote st ins).2 := by
  obtain ⟨hu, hg, hm, hn⟩ := h
  unfold createNote invState
  dsimp only
  exact ⟨hu, hg, hm, goodTable_create _ _ hn⟩

theorem invState_seedDemoData (st : StorageState) (uid : Int) (now : Int)
    (h : invState st) : invState (seedDemoData st uid now) := by
  unfold seedDemoData
  exact invState_createNote _ _ (invState_createNote _ _
    (invState_createMealPlan _ _ _ (invState_createMealPlan _ _ _
      (invState_createGlucoseReading _ _ (invState_createGlucoseReading _ _
        (invState_createGlucoseReading _ _ (invState_createGlucoseReading _ _ h)))))))

theorem invState_createUser (st : StorageState) (now : Int) (ins : InsertUser)
    (h : invState st) : invState (createUser st now ins).2 := by
  obtain ⟨hu, hg, hm, hn⟩ := h
  have hst1 : invState { st with users := (st.users.create fun id =>
      { id := id, username := ins.username, email := ins.email,
        password := ins.password, name := ins.name, allergies := ins.allergies : User }).2 } := by
    unfold invState
    dsimp only
    exact ⟨goodTable_create _ _ hu, hg, hm, hn⟩
  unfold createUser
  dsimp only
  split
  · exact invState_seedDemoData _ _ _ hst1
  · exact hst1

theorem invState_updateUser (st : StorageState) (id : Int) (u : PartialInsertUser)
    (h : invState st) : invState (updateUser st id u).2 := by
  obtain ⟨hu, hg, hm, hn⟩ := h
  unfold updateUser invState
  dsimp only
  exact ⟨goodTable_update _ _ _ hu, hg, hm, hn⟩

theorem invState_updateGlucoseReading (st : StorageState) (id : Int)
    (u : PartialInsertGlucoseReading) (h : invState st) :
    invState (updateGlucoseReading st id u).2 := by
  obtain ⟨hu, hg, hm, hn⟩ := h
  unfold updateGlucoseReading invState
  dsimp only
  exact ⟨hu, goodTable_update _ _ _ hg, hm, hn⟩

theorem invState_deleteGlucoseReading (st : StorageState) (id : Int)
    (h : invState st) : invState (deleteGlucoseReading st id).2 := by
  obtain ⟨hu, hg, hm, hn⟩ := h
  unfold deleteGlucoseReading invState
  dsimp only
  exact ⟨hu, goodTable_del _ _ hg, hm, hn⟩

theorem invState_updateMealPlan (st : StorageState) (id : Int)
    (u : PartialInsertMealPlan) (h : invState st) :
    invState (updateMealPlan st id u).2 := by
  obtain ⟨hu, hg, hm, hn⟩ := h
  unfold updateMealPlan invState
  dsimp only
  exact ⟨hu, hg, goodTable_update _ _ _ hm, hn⟩

theorem invState_deleteMealPlan (st : StorageState) (id : Int)
    (h : invState st) : invState (deleteMealPlan st id).2 := by
  obtain ⟨hu, hg, hm, hn⟩ := h
  unfold deleteMealPlan invState
  dsimp only
  exact ⟨hu, hg, goodTable_del _ _ hm, hn⟩

theorem invState_updateNote (st : StorageState) (id : Int)
    (u : PartialInsertNote) (h : invState st) : invState (updateNote st id u).2 := by
  obtain ⟨hu, hg, hm, hn⟩ := h
  unfold updateNote invState
  dsimp only
  exact ⟨hu, hg, hm, goodTable_update _ _ _ hn⟩

theorem invState_deleteNote (st : StorageState) (id : Int)
    (h : invState st) : invState (deleteNote st id).2 := by
  obtain ⟨hu, hg, hm, hn⟩ := h
  unfold deleteNote invState
  dsimp only
  exact ⟨hu, hg, hm, goodTable_del _ _ hn⟩

theorem invState_applyOp (st : StorageState) (op : Op)
    (h : invState st) : invState (applyOp st op) := by
  cases op with
  | opRegisterUser now ins => exact invState_createUser st now ins h
  | opUpdateUser id u => exact invState_updateUser st id u h
  | opCreateGlucose ins => exact invState_createGlucoseReading st ins h
  | opUpdateGlucose id u => exact invState_updateGlucoseReading st id u h
  | opDeleteGlucose id => exact invState_deleteGlucoseReading st id h
  | opCreateMeal now ins => exact invState_createMealPlan st now ins h
  | opUpdateMeal id u => exact invState_updateMealPlan st id u h
  | opDeleteMeal id => exact invState_deleteMealPlan st id h
  | opCreateNote ins => exact invState_createNote st ins h
  | opUpdateNote id u => exact invState_updateNote st id u h
  | opDeleteNote id => exact invState_deleteNote st id h

theorem invState_emptyState : invState emptyState := by
  refine ⟨⟨?_, ?_⟩, ⟨?_, ?_⟩, ⟨?_, ?_⟩, ⟨?_, ?_⟩⟩ <;>
    simp [emptyState, Table.keys]

theorem invState_runOps (st : StorageState) (ops : List Op)
    (h : invState st) : invState (runOps st ops) := by
  induction ops generalizing st with
  | nil => exact h
  | cons op ops ih => exact ih _ (invState_applyOp st op h)

theorem nextId_tableCreate {α : Type} (t : Table α) (mk : Int → α) :
    (t.create mk).2.nextId = t.nextId + 1 := rfl

theorem nextId_tableUpdate {α : Type} (t : Table α) (id : Int) (f : α → α) :
    (t.update id f).2.nextId = t.nextId := by
  unfold Table.update
  cases mapGet t.rows id <;> rfl

theorem nextId_tableDel {α : Type} (t : Table α) (id : Int) :
    (t.del id).2.nextId = t.nextId := rfl

theorem countersLE_refl (a : StorageState) : countersLE a a := by
  unfold countersLE
  omega

theorem countersLE_trans {a b c : StorageState}
    (h1 : countersLE a b) (h2 : countersLE b c) : countersLE a c := by
  unfold countersLE at h1 h2 ⊢
  omega

theorem countersLE_createGlucoseReading (st : StorageState) (ins : InsertGlucoseReading) :
    countersLE st (createGlucoseReading st ins).2 := by
  unfold createGlucoseReading countersLE
  dsimp only
  rw [nextId_tableCreate]
  omega

theorem countersLE_createMealPlan (st : StorageState) (now : Int) (ins : InsertMealPlan) :
    countersLE st (createMealPlan st now ins).2 := by
  unfold createMealPlan countersLE
  dsimp only
  rw [nextId_tableCreate]
  omega

theorem countersLE_createNote (st : StorageState) (ins : InsertNote) :
    countersLE st (createNote st ins).2 := by
  unfold createNote countersLE
  dsimp only
  rw [nextId_tableCreate]
  omega

theorem countersLE_seedDemoData (st : StorageState) (uid : Int) (now : Int) :
    countersLE st (seedDemoData st uid now) := by
  unfold seedDemoData
  exact countersLE_trans (countersLE_createGlucoseReading _ _)
    (countersLE_trans (countersLE_createGlucoseReading _ _)
      (countersLE_trans (countersLE_createGlucoseReading _ _)
        (countersLE_trans (countersLE_createGlucoseReading _ _)
          (countersLE_trans (countersLE_createMealPlan _ _ _)
            (countersLE_trans (countersLE_createMealPlan _ _ _)
              (countersLE_trans (countersLE_createNote _ _)
                (countersLE_createNote _ _)))))))

theorem countersLE_createUser (st : StorageState) (now : Int) (ins : InsertUser) :
    countersLE st (createUser st now ins).2 := by
  have hstep : countersLE st { st with users := (st.users.create fun id =>
      { id := id, username := ins.username, email := ins.email,
        password := ins.password, name := ins.name, allergies := ins.allergies : User }).2 } := by
    unfold countersLE
    dsimp only
    rw [nextId_tableCreate]
    omega
  unfold createUser
  dsimp only
  split
  · exact countersLE_trans hstep (countersLE_seedDemoData _ _ _)
  · exact hstep

theorem countersLE_updateUser (st : StorageState) (id : Int) (u : PartialInsertUser) :
    countersLE st (updateUser st id u).2 := by
  unfold updateUser countersLE
  dsimp only
  rw [nextId_tableUpdate]
  omega

theorem countersLE_updateGlucoseReading (st : StorageState) (id : Int)
    (u : PartialInsertGlucoseReading) : countersLE st (updateGlucoseReading st id u).2 := by
  unfold updateGlucoseReading countersLE
  dsimp only
  rw [nextId_tableUpdate]
  omega

theorem countersLE_deleteGlucoseReading (st : StorageState) (id : Int) :
    countersLE st (deleteGlucoseReading st id).2 := by
  unfold deleteGlucoseReading countersLE
  dsimp only
  rw [nextId_tableDel]
  omega

theorem countersLE_updateMealPlan (st : StorageState) (id : Int)
    (u : PartialInsertMealPlan) : countersLE st (updateMealPlan st id u).2 := by
  unfold updateMealPlan countersLE
  dsimp only
  rw [nextId_tableUpdate]
  omega

theorem countersLE_deleteMealPlan (st : StorageState) (id : Int) :
    countersLE st (deleteMealPlan st id).2 := by
  unfold deleteMealPlan countersLE
  dsimp only
  rw [nextId_tableDel]
  omega

theorem countersLE_updateNote (st : StorageState) (id : Int)
    (u : PartialInsertNote) : countersLE st (updateNote st id u).2 := by
  unfold updateNote countersLE
  dsimp only
  rw [nextId_tableUpdate]
  omega

theorem countersLE_deleteNote (st : StorageState) (id : Int) :
    countersLE st (deleteNote st id).2 := by
  unfold deleteNote countersLE
  dsimp only
  rw [nextId_tableDel]
  omega

theorem countersLE_applyOp (st : StorageState) (op : Op) :
    countersLE st (applyOp st op) := by
  cases op with
  | opRegisterUser now ins => exact countersLE_createUser st now ins
  | opUpdateUser id u => exact countersLE_updateUser st id u
  | opCreateGlucose ins => exact countersLE_createGlucoseReading st ins
  | opUpdateGlucose id u => exact countersLE_updateGlucoseReading st id u
  | opDeleteGlucose id => exact countersLE_deleteGlucoseReading st id
  | opCreateMeal now ins => exact countersLE_createMealPlan st now ins
  | opUpdateMeal id u => exact countersLE_updateMealPlan st id u
  | opDeleteMeal id => exact countersLE_deleteMealPlan st id
  | opCreateNote ins => exact countersLE_createNote st ins
  | opUpdateNote id u => exact countersLE_updateNote st id u
  | opDeleteNote id => exact countersLE_deleteNote st id

theorem countersLE_runOps (st : StorageState) (ops : List Op) :
    countersLE st (runOps st ops) := by
  induction ops generalizing st with
  | nil => exact countersLE_refl st
  | cons op ops ih =>
    exact countersLE_trans (countersLE_applyOp st op) (ih (applyOp st op))

theorem createGlucoseReading_id (st : StorageState) (ins : InsertGlucoseReading) :
    (createGlucoseReading st ins).1.id = st.glucose.nextId := rfl

theorem createMealPlan_id (st : StorageState) (now : Int) (ins : InsertMealPlan) :
    (createMealPlan st now ins).1.id = st.meals.nextId := rfl

theorem createNote_id (st : StorageState) (ins : InsertNote) :
    (createNote st ins).1.id = st.notes.nextId := rfl

theorem createUser_id (st : StorageState) (now : Int) (ins : InsertUser) :
    (createUser st now ins).1.id = st.users.nextId := by
  unfold createUser
  dsimp only
  split <;> rfl

theorem mem_allergyFilter (al base : List String) (ing : String)
    (h : ing ∈ allergyFilter al base) :
    ∀ a ∈ al, jsIncludes (jsToLower ing) (jsToLower a) = false := by
  intro a ha
  unfold allergyFilter at h
  have hkeep := (List.mem_filter.mp h).2
  rw [Bool.not_eq_true'] at hkeep
  rw [List.any_eq_false] at hkeep
  simpa using hkeep a ha

/-- C3: `MemStorage.createGlucoseReading` stores exactly the supplied
timestamp — when the insert omits it, the stored and returned reading has no
timestamp at all instead of the creation time, although the schema declares
`timestamp.notNull().defaultNow()`; `createMealPlan` by contrast does default
`createdAt` to the clock. -/
theorem glucose_create_timestamp_not_defaulted :
    (∀ (st : StorageState) (ins : InsertGlucoseReading),
      (createGlucoseReading st ins).1.timestamp = ins.timestamp) ∧
    (createGlucoseReading (initialState 0) sampleGlucoseInsert).1.timestamp = none ∧
    (∀ (st : StorageState) (now : Int) (ins : InsertMealPlan),
      (createMealPlan st now ins).1.createdAt = ins.createdAt.getD now) :=
  ⟨fun _ _ => rfl, rfl, fun _ _ _ => rfl⟩

/-- C6: in every reachable store state, deleting a record and then fetching
it by id yields absence, and the boolean a delete returns is exactly whether
the id was present (so deleting a nonexistent id returns `false` rather than
raising), for glucose readings, meal plans and notes alike. -/
theorem delete_then_get_absent (ops : List Op) (id : Int) :
    ((deleteGlucoseReading (runOps emptyState ops) id).1
        = (getGlucoseReading (runOps emptyState ops) id).isSome ∧
      getGlucoseReading (deleteGlucoseReading (runOps emptyState ops) id).2 id = none) ∧
    ((deleteMealPlan (runOps emptyState ops) id).1
        = (getMealPlan (runOps emptyState ops) id).isSome ∧
      getMealPlan (deleteMealPlan (runOps emptyState ops) id).2 id = none) ∧
    ((deleteNote (runOps emptyState ops) id).1
        = (getNote (runOps emptyState ops) id).isSome ∧
      getNote (deleteNote (runOps emptyState ops) id).2 id = none) := by
  obtain ⟨hu, hg, hm, hn⟩ := invState_runOps emptyState ops invState_emptyState
  refine ⟨⟨?_, ?_⟩, ⟨?_, ?_⟩, ⟨?_, ?_⟩⟩
  · exact mapHas_eq_isSome _ _
  · exact mapGet_mapDelete_self _ _ hg.1
  · exact mapHas_eq_isSome _ _
  · exact mapGet_mapDelete_self _ _ hm.1
  · exact mapHas_eq_isSome _ _
  · exact mapGet_mapDelete_self _ _ hn.1

/-- C7: every ingredient of the fallback sample meal plan is free of every
listed allergy as a case-insensitive substring, for every meal type
(including unknown ones, which fall back to the snack sample). -/
theorem sample_meal_plan_respects_allergies (mealType : String) (allergies : List String) :
    ∀ ing ∈ (getSampleMealPlan mealType allergies).ingredients,
      ∀ a ∈ allergies, jsIncludes (jsToLower ing) (jsToLower a) = false := by
  intro ing hing a ha
  unfold getSampleMealPlan at hing
  split_ifs at hing <;> exact mem_allergyFilter _ _ _ hing a ha

/-- Concrete instance of C7: the breakfast fallback for allergy list
`["peanuts"]` keeps "Greek yogurt", which contains no "peanut" substring. -/
theorem sample_meal_plan_respects_allergies_witness :
    "Greek yogurt" ∈ (getSampleMealPlan "breakfast" ["peanuts"]).ingredients ∧
    "peanuts" ∈ ["peanuts"] ∧
    jsIncludes (jsToLower "Greek yogurt") (jsToLower "peanuts") = false :=
  ⟨by decide, by decide,
    sample_meal_plan_respects_allergies "breakfast" ["peanuts"]
      "Greek yogurt" (by decide) "peanuts" (by decide)⟩

/-- C8: the generation adapter is total — whatever the credential lookup,
fetch outcome and response shape, `generateMealPlan` resolves to a meal plan
and never propagates an exception. -/
theorem generateMealPlan_total (env : GenEnv) (mealType : String) (allergies : List String) :
    ∃ mp, generateMealPlan env mealType allergies = Except.ok mp := by
  unfold generateMealPlan
  cases h : tryGenerateMealPlan env mealType allergies with
  | ok mp => exact ⟨mp, rfl⟩
  | error e => exact ⟨getSampleMealPlan mealType allergies, rfl⟩

theorem mem_sortBy_filter {α : Type} (le : α → α → Bool) (p : α → Bool)
    (l : List α) (x : α) (h : x ∈ sortBy le (l.filter p)) : p x = true :=
  (List.mem_filter.mp ((mem_sortBy le x _).mp h)).2

/-- C4: every list query returns only records owned by the queried user —
for any store state, any limit or filter, a returned glucose reading, meal
plan or note has the queried owner and never another user's id. -/
theorem list_queries_only_owner (st : StorageState) (u1 u2 : Int) (hne : u1 ≠ u2) :
    (∀ lim r, r ∈ getGlucoseReadings st u1 lim → r.userId = u1 ∧ r.userId ≠ u2) ∧
    (∀ s e r, r ∈ getGlucoseReadingsByDateRange st u1 s e → r.userId = u1 ∧ r.userId ≠ u2) ∧
    (∀ lim p, p ∈ getMealPlans st u1 lim → p.userId = u1 ∧ p.userId ≠ u2) ∧
    (∀ ty p, p ∈ getMealPlansByType st u1 ty → p.userId = u1 ∧ p.userId ≠ u2) ∧
    (∀ lim n, n ∈ getNotes st u1 lim → n.userId = u1 ∧ n.userId ≠ u2) := by
  have owner : ∀ v : Int, v = u1 → v = u1 ∧ v ≠ u2 := by
    intro v hv
    subst hv
    exact ⟨rfl, hne⟩
  refine ⟨?_, ?_, ?_, ?_, ?_⟩
  · intro lim r hr
    have hr2 : r ∈ sortBy (fun a b => decide (jsTime b.timestamp ≤ jsTime a.timestamp))
        (st.glucose.values.filter fun q => q.userId == u1) := by
      unfold getGlucoseReadings at hr
      cases lim with
      | none => exact hr
      | some n =>
        by_cases hn : n = 0
        · simpa [hn] using hr
        · exact List.take_subset _ _ (by simpa [hn] using hr)
    exact owner _ (by simpa using mem_sortBy_filter _ _ _ _ hr2)
  · intro s e r hr
    have hp := mem_sortBy_filter _ _ _ _ (by
      unfold getGlucoseReadingsByDateRange at hr
      exact hr)
    rw [Bool.and_eq_true] at hp
    exact owner _ (by simpa using hp.1)
  · intro lim p hp
    have hp2 : p ∈ sortBy (fun a b => decide (b.createdAt ≤ a.createdAt))
        (st.meals.values.filter fun q => q.userId == u1) := by
      unfold getMealPlans at hp
      cases lim with
      | none => exact hp
      | some n =>
        by_cases hn : n = 0
        · simpa [hn] using hp
        · exact List.take_subset _ _ (by simpa [hn] using hp)
    exact owner _ (by simpa using mem_sortBy_filter _ _ _ _ hp2)
  · intro ty p hp
    have hpred := mem_sortBy_filter _ _ _ _ (by
      unfold getMealPlansByType at hp
      exact hp)
    rw [Bool.and_eq_true] at hpred
    exact owner _ (by simpa using hpred.1)
  · intro lim n hn
    have hn2 : n ∈ sortBy (fun a b => decide (jsTime b.timestamp ≤ jsTime a.timestamp))
        (st.notes.values.filter fun q => q.userId == u1) := by
      unfold getNotes at hn
      cases lim with
      | none => exact hn
      | some m =>
        by_cases hm : m = 0
        · simpa [hm] using hn
        · exact List.take_subset _ _ (by simpa [hm] using hn)
    exact owner _ (by simpa using mem_sortBy_filter _ _ _ _ hn2)

/-- Concrete instance of C4: the first seeded reading is listed for user 1
and indeed belongs to user 1, not to user 2. -/
theorem list_queries_only_owner_witness :
    (1 : Int) ≠ 2 ∧ seededReading1 ∈ getGlucoseReadings (initialState 0) 1 none ∧
    seededReading1.userId = 1 ∧ seededReading1.userId ≠ 2 :=
  ⟨by decide, by decide,
    ((list_queries_only_owner (initialState 0) 1 2 (by decide)).1 none seededReading1 (by decide)).1,
    ((list_queries_only_owner (initialState 0) 1 2 (by decide)).1 none seededReading1 (by decide)).2⟩

/-- C5: an update or delete aimed at an existing record owned by a different
user answers 403 (the not-found case answers 404 instead) and leaves the
store — in particular the targeted record — untouched, for every entity
type. -/
theorem wrong_owner_update_delete_403 (st : StorageState) (uid rid : Int) :
    (∀ r, getGlucoseReading st rid = some r → r.userId ≠ uid →
      (∀ body, putGlucoseHandler st uid rid body = ⟨403, none, st⟩) ∧
      deleteGlucoseHandler st uid rid = ⟨403, none, st⟩) ∧
    (∀ p, getMealPlan st rid = some p → p.userId ≠ uid →
      (∀ body, putMealPlanHandler st uid rid body = ⟨403, none, st⟩) ∧
      deleteMealPlanHandler st uid rid = ⟨403, none, st⟩) ∧
    (∀ n, getNote st rid = some n → n.userId ≠ uid →
      (∀ body, putNoteHandler st uid rid body = ⟨403, none, st⟩) ∧
      deleteNoteHandler st uid rid = ⟨403, none, st⟩) := by
  refine ⟨?_, ?_, ?_⟩
  · intro r hget hne
    constructor
    · intro body
      unfold putGlucoseHandler
      rw [hget]
      dsimp only
      rw [if_pos hne]
    · unfold deleteGlucoseHandler
      rw [hget]
      dsimp only
      rw [if_pos hne]
  · intro p hget hne
    constructor
    · intro body
      unfold putMealPlanHandler
      rw [hget]
      dsimp only
      rw [if_pos hne]
    · unfold deleteMealPlanHandler
      rw [hget]
      dsimp only
      rw [if_pos hne]
  · intro n hget hne
    constructor
    · intro body
      unfold putNoteHandler
      rw [hget]
      dsimp only
      rw [if_pos hne]
    · unfold deleteNoteHandler
      rw [hget]
      dsimp only
      rw [if_pos hne]

/-- Concrete instance of C5: user 2 attempting to update reading 1 (owned by
user 1) in the initial store gets 403 and the store is unchanged. -/
theorem wrong_owner_update_delete_403_witness :
    getGlucoseReading (initialState 0) 1 = some seededReading1 ∧
    seededReading1.userId ≠ 2 ∧
    putGlucoseHandler (initialState 0) 2 1 none = ⟨403, none, initialState 0⟩ :=
  ⟨by decide, by decide,
    ((wrong_owner_update_delete_403 (initialState 0) 2 1).1 seededReading1
      (by decide) (by decide)).1 none⟩

theorem createUser_username (st : StorageState) (now : Int) (ins : InsertUser) :
    (createUser st now ins).1.username = ins.username := by
  unfold createUser
  dsimp only
  split <;> rfl

theorem createUser_email (st : StorageState) (now : Int) (ins : InsertUser) :
    (createUser st now ins).1.email = ins.email := by
  unfold createUser
  dsimp only
  split <;> rfl

/-- C10: an update on an existing record returns the spread-merge of the old
record with the supplied partial fields — every field absent from the update
keeps its old value, the id never changes, records with other ids are
untouched, and the other collections are untouched — for glucose readings,
users and notes. -/
theorem update_preserves_unspecified_fields (st : StorageState) (id : Int) :
    (∀ (u : PartialInsertGlucoseReading) (r : GlucoseReading),
      getGlucoseReading st id = some r →
      (updateGlucoseReading st id u).1 = some (mergeGlucose r u) ∧
      (mergeGlucose r u).id = r.id ∧
      (u.userId = none → (mergeGlucose r u).userId = r.userId) ∧
      (u.value = none → (mergeGlucose r u).value = r.value) ∧
      (u.timestamp = none → (mergeGlucose r u).timestamp = r.timestamp) ∧
      (u.type = none → (mergeGlucose r u).type = r.type) ∧
      (u.note = none → (mergeGlucose r u).note = r.note) ∧
      (∀ j, j ≠ id →
        getGlucoseReading (updateGlucoseReading st id u).2 j = getGlucoseReading st j) ∧
      (updateGlucoseReading st id u).2.users = st.users ∧
      (updateGlucoseReading st id u).2.meals = st.meals ∧
      (updateGlucoseReading st id u).2.notes = st.notes) ∧
    (∀ (u : PartialInsertUser) (r : User),
      getUser st id = some r →
      (updateUser st id u).1 = some (mergeUser r u) ∧
      (mergeUser r u).id = r.id ∧
      (u.username = none → (mergeUser r u).username = r.username) ∧
      (u.email = none → (mergeUser r u).email = r.email) ∧
      (u.password = none → (mergeUser r u).password = r.password) ∧
      (u.name = none → (mergeUser r u).name = r.name) ∧
      (u.allergies = none → (mergeUser r u).allergies = r.allergies) ∧
      (∀ j, j ≠ id → getUser (updateUser st id u).2 j = getUser st j) ∧
      (updateUser st id u).2.glucose = st.glucose ∧
      (updateUser st id u).2.meals = st.meals ∧
      (updateUser st id u).2.notes = st.notes) ∧
    (∀ (u : PartialInsertNote) (r : Note),
      getNote st id = some r →
      (updateNote st id u).1 = some (mergeNote r u) ∧
      (mergeNote r u).id = r.id ∧
      (u.userId = none → (mergeNote r u).userId = r.userId) ∧
      (u.title = none → (mergeNote r u).title = r.title) ∧
      (u.content = none → (mergeNote r u).content = r.content) ∧
      (u.timestamp = none → (mergeNote r u).timestamp = r.timestamp) ∧
      (u.category = none → (mergeNote r u).category = r.category) ∧
      (∀ j, j ≠ id → getNote (updateNote st id u).2 j = getNote st j) ∧
      (updateNote st id u).2.users = st.users ∧
      (updateNote st id u).2.glucose = st.glucose ∧
      (updateNote st id u).2.meals = st.meals) := by
  refine ⟨?_, ?_, ?_⟩
  · intro u r hget
    unfold getGlucoseReading Table.get at hget
    unfold updateGlucoseReading Table.update
    rw [hget]
    dsimp only
    refine ⟨rfl, rfl, ?_, ?_, ?_, ?_, ?_, ?_, rfl, rfl, rfl⟩
    · intro h; simp [mergeGlucose, h]
    · intro h; simp [mergeGlucose, h]
    · intro h; simp [mergeGlucose, h]
    · intro h; simp [mergeGlucose, h]
    · intro h; simp [mergeGlucose, h]
    · intro j hj
      unfold getGlucoseReading Table.get
      dsimp only
      exact mapGet_mapSet_ne _ _ _ _ hj
  · intro u r hget
    unfold getUser Table.get at hget
    unfold updateUser Table.update
    rw [hget]
    dsimp only
    refine ⟨rfl, rfl, ?_, ?_, ?_, ?_, ?_, ?_, rfl, rfl, rfl⟩
    · intro h; simp [mergeUser, h]
    · intro h; simp [mergeUser, h]
    · intro h; simp [mergeUser, h]
    · intro h; simp [mergeUser, h]
    · intro h; simp [mergeUser, h]
    · intro j hj
      unfold getUser Table.get
      dsimp only
      exact mapGet_mapSet_ne _ _ _ _ hj
  · intro u r hget
    unfold getNote Table.get at hget
    unfold updateNote Table.update
    rw [hget]
    dsimp only
    refine ⟨rfl, rfl, ?_, ?_, ?_, ?_, ?_, ?_, rfl, rfl, rfl⟩
    · intro h; simp [mergeNote, h]
    · intro h; simp [mergeNote, h]
    · intro h; simp [mergeNote, h]
    · intro h; simp [mergeNote, h]
    · intro h; simp [mergeNote, h]
    · intro j hj
      unfold getNote Table.get
      dsimp only
      exact mapGet_mapSet_ne _ _ _ _ hj

/-- Concrete instance of C10: updating only the value of reading 1 keeps its
timestamp and leaves reading 2 untouched. -/
theorem update_preserves_unspecified_fields_witness :
    getGlucoseReading (initialState 0) 1 = some seededReading1 ∧
    sampleGlucosePatch.timestamp = none ∧
    (mergeGlucose seededReading1 sampleGlucosePatch).timestamp = seededReading1.timestamp ∧
    (2 : Int) ≠ 1 ∧
    getGlucoseReading (updateGlucoseReading (initialState 0) 1 sampleGlucosePatch).2 2 =
      getGlucoseReading (initialState 0) 2 :=
  ⟨by decide, rfl,
    ((update_preserves_unspecified_fields (initialState 0) 1).1 sampleGlucosePatch
      seededReading1 (by decide)).2.2.2.2.1 rfl,
    by decide,
    ((update_preserves_unspecified_fields (initialState 0) 1).1 sampleGlucosePatch
      seededReading1 (by decide)).2.2.2.2.2.2.2.1 2 (by decide)⟩

/-- C9: in every state reachable from the fresh store, each collection's
identifiers are pairwise distinct, and any create performed later — after
arbitrarily many more operations, including deletes — assigns an id strictly
greater than every id ever present earlier, so ids are never reused. -/
theorem ids_unique_and_never_reused (ops more : List Op) :
    ((runOps emptyState ops).users.keys.Nodup ∧
      (runOps emptyState ops).glucose.keys.Nodup ∧
      (runOps emptyState ops).meals.keys.Nodup ∧
      (runOps emptyState ops).notes.keys.Nodup) ∧
    (∀ i ∈ (runOps emptyState ops).users.keys, ∀ now ins,
      i < (createUser (runOps (runOps emptyState ops) more) now ins).1.id) ∧
    (∀ i ∈ (runOps emptyState ops).glucose.keys, ∀ ins,
      i < (createGlucoseReading (runOps (runOps emptyState ops) more) ins).1.id) ∧
    (∀ i ∈ (runOps emptyState ops).meals.keys, ∀ now ins,
      i < (createMealPlan (runOps (runOps emptyState ops) more) now ins).1.id) ∧
    (∀ i ∈ (runOps emptyState ops).notes.keys, ∀ ins,
      i < (createNote (runOps (runOps emptyState ops) more) ins).1.id) := by
  obtain ⟨hu, hg, hm, hn⟩ := invState_runOps emptyState ops invState_emptyState
  obtain ⟨cu, cg, cm, cn⟩ := countersLE_runOps (runOps emptyState ops) more
  refine ⟨⟨hu.1, hg.1, hm.1, hn.1⟩, ?_, ?_, ?_, ?_⟩
  · intro i hi now ins
    rw [createUser_id]
    exact lt_of_lt_of_le (hu.2 i hi) cu
  · intro i hi ins
    rw [createGlucoseReading_id]
    exact lt_of_lt_of_le (hg.2 i hi) cg
  · intro i hi now ins
    rw [createMealPlan_id]
    exact lt_of_lt_of_le (hm.2 i hi) cm
  · intro i hi ins
    rw [createNote_id]
    exact lt_of_lt_of_le (hn.2 i hi) cn

/-- Concrete instance of C9: create reading 1, delete it, create again — the
new reading gets an id strictly greater than the deleted 1. -/
theorem ids_unique_and_never_reused_witness :
    (1 : Int) ∈ (runOps emptyState [Op.opCreateGlucose sampleGlucoseInsert]).glucose.keys ∧
    1 < (createGlucoseReading (runOps (runOps emptyState [Op.opCreateGlucose sampleGlucoseInsert])
      [Op.opDeleteGlucose 1]) sampleGlucoseInsert).1.id :=
  ⟨by decide,
    (ids_unique_and_never_reused [Op.opCreateGlucose sampleGlucoseInsert]
      [Op.opDeleteGlucose 1]).2.2.1 1 (by decide) sampleGlucoseInsert⟩

/-- C2 fails on the code: the constructor pre-seeds the user "demo", so the
spec's registration scenario, run from the program's initial state, is
rejected as a duplicate username (400) with no user object returned. -/
theorem register_demo_in_initial_state_rejected :
    (registerHandler (initialState 0) 0 demoRegisterBody).status = 400 ∧
    (registerHandler (initialState 0) 0 demoRegisterBody).payload = none := by
  decide

/-- C2 amended: a registration whose body passes the schema and whose
username and email are not yet taken (case-insensitively) succeeds with 201
and returns a user object carrying the requested username and email. -/
theorem register_fresh_credentials_succeed (st : StorageState) (now : Int)
    (b : RegisterBody)
    (hv : registerValidate b = true)
    (hu : getUserByUsername st b.username = none)
    (he : getUserByEmail st b.email = none) :
    (registerHandler st now b).status = 201 ∧
    ∃ pu, (registerHandler st now b).payload = some pu ∧
      pu.username = b.username ∧ pu.email = b.email := by
  unfold registerHandler
  rw [if_neg (by simp [hv]), hu]
  dsimp only
  rw [he]
  dsimp only
  refine ⟨rfl, stripPassword (createUser st now
    { username := b.username, email := b.email, password := b.password,
      name := b.name, allergies := b.allergies }).1, rfl, ?_, ?_⟩
  · exact createUser_username _ _ _
  · exact createUser_email _ _ _

/-- Concrete instance of the amended C2: registering "alice" from the
initial state succeeds with 201. -/
theorem register_fresh_credentials_succeed_witness :
    registerValidate aliceRegisterBody = true ∧
    getUserByUsername (initialState 0) "alice" = none ∧
    getUserByEmail (initialState 0) "alice@example.com" = none ∧
    (registerHandler (initialState 0) 0 aliceRegisterBody).status = 201 :=
  ⟨by decide, by decide, by decide,
    (register_fresh_credentials_succeed (initialState 0) 0 aliceRegisterBody
      (by decide) (by decide) (by decide)).1⟩

/-- C1 fails on the code: a create request whose value 601 lies outside
[20,600] passes `insertGlucoseReadingSchema` (which checks types only),
answers 201, and the reading is stored. -/
theorem glucose_out_of_range_value_accepted :
    (postGlucoseHandler (initialState 0) 1 (.num 601) (.str "before_breakfast")
      .undef .undef).status = 201 ∧
    getGlucoseReading (postGlucoseHandler (initialState 0) 1 (.num 601)
      (.str "before_breakfast") .undef .undef).state 5 =
      some { id := 5, userId := 1, value := 601, timestamp := none,
             type := "before_breakfast", note := none } := by
  decide

/-- C1 amended: the server-side schema accepts every integer value — the
request answers 201 and the reading is stored whatever the value — while the
[20,600] bound is enforced only by the client-side form schema, which
accepts a value exactly when it lies in [20,600]. -/
theorem glucose_range_checked_client_side_only :
    (∀ (st : StorageState) (uid v : Int) (ty : String),
      (postGlucoseHandler st uid (.num v) (.str ty) .undef .undef).status = 201 ∧
      (postGlucoseHandler st uid (.num v) (.str ty) .undef .undef).payload =
        some { id := st.glucose.nextId, userId := uid, value := v,
               timestamp := none, type := ty, note := none }) ∧
    (∀ (v : Int) (ty : String), 1 ≤ ty.length →
      (glucoseFormValidate v ty = true ↔ 20 ≤ v ∧ v ≤ 600)) := by
  constructor
  · intro st uid v ty
    exact ⟨rfl, rfl⟩
  · intro v ty hty
    unfold glucoseFormValidate
    simp only [Bool.and_eq_true, decide_eq_true_eq]
    constructor
    · rintro ⟨⟨h1, h2⟩, -⟩
      exact ⟨h1, h2⟩
    · rintro ⟨h1, h2⟩
      exact ⟨⟨h1, h2⟩, hty⟩

/-- Concrete instance of the amended C1: the client form schema rejects 601. -/
theorem glucose_range_checked_client_side_only_witness :
    1 ≤ ("before_breakfast" : String).length ∧
    (glucoseFormValidate 601 "before_breakfast" = true ↔
      20 ≤ (601 : Int) ∧ (601 : Int) ≤ 600) :=
  ⟨by decide,
    glucose_range_checked_client_side_only.2 601 "before_breakfast" (by decide)⟩
